import Mathlib

/-!
Verification development for the scraping engine of the animeindo repository
(src/branches/improve-scraping/src/services/ScrapingService.ts).

The TypeScript service is shallowly embedded below. Pure text transforms
(generateSlug, parseStatus) become pure Lean functions over an ASCII model of
the JavaScript string primitives. The effectful scraping pipeline becomes
explicit environment passing: a run environment records, for every page and
retry attempt, the outcome the network / headless renderer would have
produced, and the orchestrator is a pure function of that environment which
also emits the observable events (inter-page sleeps, page outcomes, tab
acquisition and release).
-/

namespace AnimeIndo

/-! JavaScript string primitives, restricted to the ASCII fragment the
service actually manipulates.  JS regex \s and String.prototype.trim also
accept further Unicode white space; only the ASCII class (plus NBSP) is
modelled here, which is faithful on the site's markup text. -/

/-- Characters matched by the JS white-space class \s (ASCII fragment plus NBSP). -/
def isJsWhitespace (c : Char) : Bool :=
  c = ' ' || c = '\t' || c = '\n' || c = '\r' || c = '\x0b' || c = '\x0c' || c = ' '

/-- Model of String.prototype.trim on the character list: drop white space
from both ends. -/
def jsTrimChars (l : List Char) : List Char :=
  ((l.dropWhile isJsWhitespace).reverse.dropWhile isJsWhitespace).reverse

/-- Model of String.prototype.trim. -/
def jsTrim (s : String) : String :=
  ⟨jsTrimChars s.data⟩

/-- Model of String.prototype.toLowerCase (ASCII: Char.toLower lowers A-Z only). -/
def jsToLower (s : String) : String :=
  ⟨s.data.map Char.toLower⟩

/-- Model of String.prototype.includes: substring containment. -/
def jsIncludes (s pat : String) : Bool :=
  decide (pat.data <:+: s.data)

/-- Characters kept by the regex replace(/[^a-z0-9\s-]/g, '') in generateSlug. -/
def slugKeep (c : Char) : Bool :=
  ('a' ≤ c && c ≤ 'z') || ('0' ≤ c && c ≤ '9') || isJsWhitespace c || c = '-'

/-- Model of a global regex replace of every maximal run of characters
matching p by the single character r (used for the whitespace-run and the
hyphen-run replaces of generateSlug).  The Boolean flag records whether the
previous character belonged to the run currently being replaced. -/
def collapseRunsAux (p : Char → Bool) (r : Char) : Bool → List Char → List Char
  | _, [] => []
  | inRun, c :: cs =>
    if p c then
      if inRun then collapseRunsAux p r true cs
      else r :: collapseRunsAux p r true cs
    else
      c :: collapseRunsAux p r false cs

/-- Replace every maximal run of characters matching p by the character r. -/
def collapseRuns (p : Char → Bool) (r : Char) (l : List Char) : List Char :=
  collapseRunsAux p r false l

/-- Whether a character is a hyphen (the class of the hyphen-run regex). -/
def isHyphen (c : Char) : Bool :=
  c = '-'

/-- Embedding of ScrapingService.generateSlug: lower-case the title, delete
every character outside the class [a-z0-9\s-], replace each whitespace run
by one hyphen, collapse each hyphen run to one hyphen, then trim.  Note the
final step is String.prototype.trim, which removes white space, not hyphens. -/
def generateSlug (title : String) : String :=
  ⟨jsTrimChars
    (collapseRuns isHyphen '-'
      (collapseRuns isJsWhitespace '-'
        ((title.data.map Char.toLower).filter slugKeep)))⟩

/-- Embedding of ScrapingService.parseStatus: lower-case the text, then an
if / else-if chain of substring tests, defaulting to "ongoing". -/
def parseStatus (statusText : String) : String :=
  let status := jsToLower statusText
  if jsIncludes status "ongoing" || jsIncludes status "berlangsung" then "ongoing"
  else if jsIncludes status "completed" || jsIncludes status "selesai" then "completed"
  else if jsIncludes status "upcoming" || jsIncludes status "akan datang" then "upcoming"
  else "ongoing"

/-! Data model (the exported TypeScript interfaces).  Date values are
modelled as Nat timestamps; the run environment supplies the clock value
used for new Date(). -/

/-- Embedding of the DownloadLink interface. -/
structure DownloadLink where
  quality : String
  url : String
  size : Option String
  format : String
  deriving DecidableEq, Repr

/-- Embedding of the ScrapedEpisodeData interface. -/
structure ScrapedEpisodeData where
  title : String
  episodeNumber : Nat
  imageUrl : Option String
  description : Option String
  airDate : Option Nat
  duration : Option Nat
  downloadLinks : List DownloadLink
  deriving DecidableEq, Repr

/-- Embedding of the anonymous metadata record type inside ScrapedAnimeData. -/
structure AnimeMetadata where
  originalUrl : String
  scrapedAt : Nat
  source : String
  deriving DecidableEq, Repr

/-- Embedding of the ScrapedAnimeData interface. -/
structure ScrapedAnimeData where
  title : String
  slug : String
  imageUrl : String
  status : String
  description : Option String
  genres : List String
  episodes : List ScrapedEpisodeData
  metadata : AnimeMetadata
  deriving DecidableEq, Repr

/-- Embedding of the ScrapingConfig interface. -/
structure ScrapingConfig where
  usePuppeteer : Bool
  timeout : Nat
  retries : Nat
  delay : Nat
  userAgent : String
  proxy : Option String
  deriving DecidableEq, Repr

/-! Extraction on the static (Cheerio) path. -/

/-- One item container as read by extractAnimeData through Cheerio
selectors: the text of '.episode-details h3 a', the src attribute of
'.episode-image img' (absent when the img or its attribute is missing),
and the texts of '.mirror-sub' and '.episode-meta'. -/
structure RawItem where
  titleText : String
  imageSrc : Option String
  statusText : String
  timeText : String
  deriving DecidableEq, Repr

/-- Embedding of ScrapingService.extractAnimeData.  The argument models the
Cheerio element reads, which sit inside the method's try block: a raised
error is the .error case and is converted by the catch into returning null
(here none).  On success the method trims the title and status, defaults a
missing src attribute to '', drops the item when title or imageUrl is falsy,
and otherwise builds the record with empty description / genres / episodes
and fixed source metadata. -/
def extractAnimeData (el : Except String RawItem) (baseUrl : String) (now : Nat) :
    Option ScrapedAnimeData :=
  match el with
  | .error _ => none
  | .ok item =>
    let title := jsTrim item.titleText
    let imageUrl := item.imageSrc.getD ""
    let status := jsTrim item.statusText
    if title = "" || imageUrl = "" then none
    else
      some
        { title := title
          slug := generateSlug title
          imageUrl := imageUrl
          status := parseStatus status
          description := some ""
          genres := []
          episodes := []
          metadata := { originalUrl := baseUrl, scrapedAt := now, source := "animeindo" } }

/-- Embedding of ScrapingService.scrapeWithCheerio.  The argument models the
outcome of the axios GET (error on transport failure or non-2xx status)
together with the '#episodes .episode' selection of the parsed body; each
selected element may itself fail to be read (the per-element try/catch logs
and skips such elements, and extractAnimeData already maps them to none). -/
def scrapeWithCheerio (response : Except String (List (Except String RawItem)))
    (url : String) (now : Nat) : Except String (List ScrapedAnimeData) :=
  response.map fun episodes => episodes.filterMap fun el => extractAnimeData el url now

/-! The rendered (Puppeteer) path. -/

/-- The headless browser handle held in the ScrapingService.browser field;
puppeteer.launch is called with headless true. -/
structure Browser where
  headless : Bool
  deriving DecidableEq, Repr

/-- One '#episodes .episode' container as seen by the page.evaluate callback:
whether each queried sub-element exists and, when it does, its textContent
(for the title, status and time elements) or its src attribute (which
getAttribute may still report as absent). -/
structure EpisodeElement where
  titleElement : Option String
  imageElement : Option (Option String)
  statusElement : Option String
  timeElement : Option String
  deriving DecidableEq, Repr

/-- The already-shaped raw item the page.evaluate callback pushes. -/
structure RenderedItem where
  title : String
  imageUrl : String
  status : String
  time : String
  deriving DecidableEq, Repr

/-- Embedding of the page.evaluate callback of scrapeWithPuppeteer.  Each
episode read sits in a try/catch that logs and skips on error; an existing
title and image element cause a push even when the trimmed title text or the
src attribute is empty (only element existence is checked). -/
def pageEvaluate (episodes : List (Except String EpisodeElement)) : List RenderedItem :=
  episodes.filterMap fun ep =>
    match ep with
    | .error _ => none
    | .ok e =>
      match e.titleElement, e.imageElement with
      | some t, some src =>
        some
          { title := jsTrim t
            imageUrl := src.getD ""
            status := (e.statusElement.map jsTrim).getD ""
            time := (e.timeElement.map jsTrim).getD "" }
      | _, _ => none

/-- Embedding of the animeList.map callback of scrapeWithPuppeteer: shape a
raw rendered item into a ScrapedAnimeData with no emptiness check. -/
def renderedItemToRecord (url : String) (now : Nat) (item : RenderedItem) :
    ScrapedAnimeData :=
  { title := item.title
    slug := generateSlug item.title
    imageUrl := item.imageUrl
    status := parseStatus item.status
    description := some ""
    genres := []
    episodes := []
    metadata := { originalUrl := url, scrapedAt := now, source := "animeindo" } }

/-- Observable tab lifecycle events of one rendered fetch. -/
inductive PEvent
  | newPage
  | closePage
  deriving DecidableEq, Repr

/-- Outcomes of the awaited browser operations of one rendered fetch
attempt: browser.newPage, page.setViewport, page.setUserAgent, page.goto
(network idle), page.waitForSelector (ContentNotFoundError on timeout), and
page.evaluate returning the episode containers it will read. -/
structure PuppeteerEnv where
  newPage : Except String Unit
  setViewport : Except String Unit
  setUserAgent : Except String Unit
  goto : Except String Unit
  waitForSelector : Except String Unit
  evaluate : Except String (List (Except String EpisodeElement))
  deriving Repr

/-- Embedding of ScrapingService.scrapeWithPuppeteer.  A missing browser
throws before any tab is acquired; otherwise browser.newPage acquires a tab,
the body runs inside try, and the finally clause closes the tab on every
path, so whenever acquisition succeeded the event trace is exactly
.newPage followed by .closePage regardless of the body's outcome. -/
def scrapeWithPuppeteer (browser : Option Browser) (env : PuppeteerEnv)
    (url : String) (now : Nat) :
    Except String (List ScrapedAnimeData) × List PEvent :=
  match browser with
  | none => (.error "Browser not initialized", [])
  | some _ =>
    match env.newPage with
    | .error e => (.error e, [])
    | .ok _ =>
      let body : Except String (List ScrapedAnimeData) :=
        match env.setViewport with
        | .error e => .error e
        | .ok _ =>
          match env.setUserAgent with
          | .error e => .error e
          | .ok _ =>
            match env.goto with
            | .error e => .error e
            | .ok _ =>
              match env.waitForSelector with
              | .error e => .error e
              | .ok _ =>
                match env.evaluate with
                | .error e => .error e
                | .ok eps => .ok ((pageEvaluate eps).map (renderedItemToRecord url now))
      (body, [PEvent.newPage, PEvent.closePage])

/-- Embedding of ScrapingService.initializeBrowser: launch a headless
browser only when the configuration selects Puppeteer and no browser has
been created yet; otherwise leave the state unchanged. -/
def initializeBrowser (cfg : ScrapingConfig) (browser : Option Browser) :
    Option Browser :=
  if cfg.usePuppeteer && browser.isNone then some { headless := true } else browser

/-! The orchestrator. -/

/-- The page URL built by scrapeAnimePage. -/
def pageUrl (page : Nat) : String :=
  "http://animeindo.web.id/page/" ++ toString page ++ "/"

/-- Modelled from the spec: RetryService.execute (the file
src/services/RetryService.ts is not under src).  Spec 4.3 and 8: invoke the
operation; on failure retry, up to 1 + maxRetries attempts in the worst
case, and fail with the last underlying error once attempts are exhausted.
The first argument is the number of retries still allowed after the current
attempt; the operation receives the index of the attempt being made, so that
an environment can make distinct attempts behave differently. -/
def retryGo (op : Nat → Except String α) : Nat → Nat → Except String α
  | 0, k => op k
  | r + 1, k =>
    match op k with
    | .ok a => .ok a
    | .error _ => retryGo op r (k + 1)

/-- Modelled from the spec: RetryService.execute with maxRetries retries
(see retryGo). -/
def retryExecute (maxRetries : Nat) (op : Nat → Except String α) :
    Except String α :=
  retryGo op maxRetries 0

/-- The per-run environment: the outcome of every static fetch attempt and
of every rendered fetch attempt (indexed by page number and attempt index),
the browser handle currently held by the service, and the clock value used
for new Date(). -/
structure RunEnv where
  static : Nat → Nat → Except String (List (Except String RawItem))
  rendered : Nat → Nat → PuppeteerEnv
  browser : Option Browser
  now : Nat

/-- Observable events of the page loop: a page attempt completing (with its
outcome) and an inter-page sleep of the configured delay. -/
inductive RunEvent
  | page (n : Nat) (ok : Bool)
  | sleep (ms : Nat)
  deriving DecidableEq, Repr

/-- Embedding of ScrapingService.scrapeAnimePage: build the page URL and run
the selected fetch strategy under the retry policy. -/
def scrapeAnimePage (cfg : ScrapingConfig) (env : RunEnv) (page : Nat) :
    Except String (List ScrapedAnimeData) :=
  retryExecute cfg.retries fun attempt =>
    if cfg.usePuppeteer then
      (scrapeWithPuppeteer env.browser (env.rendered page attempt) (pageUrl page) env.now).1
    else
      scrapeWithCheerio (env.static page attempt) (pageUrl page) env.now

/-- Embedding of ScrapingService.scrapeAnimePages.  The loop body is a try
block that scrapes the page, appends its records, and then sleeps for the
configured delay; the catch clause only logs and continues, so a failed page
contributes neither records nor a sleep, and errors never escape (the
function is total and returns only the flat record list, paired here with
the observable event trace). -/
def scrapeAnimePages (cfg : ScrapingConfig) (env : RunEnv) (pages : List Nat) :
    List ScrapedAnimeData × List RunEvent :=
  match pages with
  | [] => ([], [])
  | p :: rest =>
    match scrapeAnimePage cfg env p with
    | .ok pageData =>
      let r := scrapeAnimePages cfg env rest
      (pageData ++ r.1, RunEvent.page p true :: RunEvent.sleep cfg.delay :: r.2)
    | .error _ =>
      let r := scrapeAnimePages cfg env rest
      (r.1, RunEvent.page p false :: r.2)

/-! Result shape described by the spec, for comparison with what the code
returns.  These two structures are deliberately translated from the spec's
words (section 3), not from the source: the source has no counterpart. -/

/-- Modelled from the spec: PageError, an entry of RunResult.errors. -/
structure SpecPageError where
  pageNumber : Nat
  message : String
  deriving DecidableEq, Repr

/-- Modelled from the spec: RunResult, the aggregate the spec says a run
returns (successes, page errors, and page counts). -/
structure SpecRunResult where
  successes : List ScrapedAnimeData
  errors : List SpecPageError
  pagesAttempted : Nat
  pagesSucceeded : Nat

/-! Concrete scenario data used by the closed theorems below. -/

/-- A static-path configuration: Cheerio strategy, 3 retries, 1000 ms delay. -/
def cfgStatic : ScrapingConfig :=
  { usePuppeteer := false, timeout := 30000, retries := 3, delay := 1000
    userAgent := "Mozilla/5.0", proxy := none }

/-- A Puppeteer-path configuration. -/
def cfgRendered : ScrapingConfig :=
  { cfgStatic with usePuppeteer := true }

/-- A well-formed item container of page p at index i. -/
def itemA (p i : Nat) : RawItem :=
  { titleText := "Anime " ++ toString p ++ " " ++ toString i
    imageSrc := some ("http://img.example/" ++ toString p ++ "/" ++ toString i ++ ".jpg")
    statusText := "Ongoing"
    timeText := "3 hours ago" }

/-- A rendered environment whose navigation succeeds but whose content
selector never appears within the bounded wait. -/
def puppeteerTimeoutEnv : PuppeteerEnv :=
  { newPage := .ok (), setViewport := .ok (), setUserAgent := .ok (), goto := .ok ()
    waitForSelector := .error "waiting for selector #episodes .episode failed: timeout 10000ms exceeded"
    evaluate := .ok [] }

/-- A rendered environment that succeeds and yields one well-formed episode. -/
def puppeteerGoodEnv : PuppeteerEnv :=
  { newPage := .ok (), setViewport := .ok (), setUserAgent := .ok (), goto := .ok ()
    waitForSelector := .ok ()
    evaluate := .ok [.ok
      { titleElement := some "Frieren Episode 5"
        imageElement := some (some "http://img.example/frieren5.jpg")
        statusElement := some "Ongoing"
        timeElement := some "1 hour ago" }] }

/-- A rendered environment whose single episode has an existing but empty
title element and an existing image with a src attribute. -/
def puppeteerEmptyTitleEnv : PuppeteerEnv :=
  { newPage := .ok (), setViewport := .ok (), setUserAgent := .ok (), goto := .ok ()
    waitForSelector := .ok ()
    evaluate := .ok [.ok
      { titleElement := some ""
        imageElement := some (some "http://img.example/poster.jpg")
        statusElement := some "Ongoing"
        timeElement := none }] }

/-- Run environment for the three-page scenario: pages 1 and 3 always
succeed with the two items itemA p 1 and itemA p 2; every fetch attempt of
page 2 fails. -/
def envPage2Fails : RunEnv :=
  { static := fun p _ =>
      if p = 2 then .error "Request failed with status code 500"
      else .ok [.ok (itemA p 1), .ok (itemA p 2)]
    rendered := fun _ _ => puppeteerTimeoutEnv
    browser := none
    now := 1700000000 }

/-- The same environment except that page 2 succeeds with an empty item
list, so that no page fails at all. -/
def envPage2Empty : RunEnv :=
  { envPage2Fails with
    static := fun p k =>
      if p = 2 then .ok [] else envPage2Fails.static p k }


/-- The record extracted from itemA 1 1 on page 1 of the scenario runs. -/
def recA11 : ScrapedAnimeData :=
  { title := "Anime 1 1", slug := "anime-1-1"
    imageUrl := "http://img.example/1/1.jpg", status := "ongoing"
    description := some "", genres := [], episodes := []
    metadata := { originalUrl := pageUrl 1, scrapedAt := 1700000000, source := "animeindo" } }

/-- The record the rendered path produces from puppeteerEmptyTitleEnv, whose
title is the empty string. -/
def emptyTitleRecord : ScrapedAnimeData :=
  renderedItemToRecord (pageUrl 1) 0
    { title := "", imageUrl := "http://img.example/poster.jpg", status := "Ongoing", time := "" }

/-- An item whose title text is whitespace only but not empty. -/
def whitespaceTitleItem : RawItem :=
  { titleText := "   ", imageSrc := some "http://img.example/ws.jpg"
    statusText := "", timeText := "" }

/-- An item whose title text carries surrounding white space. -/
def paddedTitleItem : RawItem :=
  { titleText := "  One Piece  ", imageSrc := some "http://img.example/op.jpg"
    statusText := "Ongoing", timeText := "" }

/-- The record extracted from paddedTitleItem: its title is the trimmed text. -/
def paddedTitleRecord : ScrapedAnimeData :=
  { title := "One Piece", slug := "one-piece"
    imageUrl := "http://img.example/op.jpg", status := "ongoing"
    description := some "", genres := [], episodes := []
    metadata := { originalUrl := pageUrl 1, scrapedAt := 7, source := "animeindo" } }

/-- An item whose non-empty title has no alphanumeric characters at all. -/
def nonAlnumItem : RawItem :=
  { titleText := "!!!", imageSrc := some "http://img.example/bang.jpg"
    statusText := "", timeText := "" }

/-- Run environment whose single page yields only nonAlnumItem. -/
def envBang : RunEnv :=
  { static := fun _ _ => .ok [.ok nonAlnumItem]
    rendered := fun _ _ => puppeteerTimeoutEnv, browser := none, now := 0 }

/-- The record extracted from nonAlnumItem: non-empty title, empty slug. -/
def bangRecord : ScrapedAnimeData :=
  { title := "!!!", slug := "", imageUrl := "http://img.example/bang.jpg", status := "ongoing"
    description := some "", genres := [], episodes := []
    metadata := { originalUrl := pageUrl 1, scrapedAt := 0, source := "animeindo" } }

/-! Helper lemmas. -/

theorem mem_collapseRunsAux {p : Char → Bool} {r c : Char} :
    ∀ (b : Bool) (l : List Char), c ∈ collapseRunsAux p r b l →
      c = r ∨ (c ∈ l ∧ p c = false) := by
  intro b l
  induction l generalizing b with
  | nil => intro h; simp [collapseRunsAux] at h
  | cons a as ih =>
    intro h
    cases hp : p a with
    | true =>
      cases b with
      | true =>
        simp only [collapseRunsAux, hp, if_true] at h
        rcases ih true h with h1 | ⟨h2, h3⟩
        · exact Or.inl h1
        · exact Or.inr ⟨List.mem_cons_of_mem _ h2, h3⟩
      | false =>
        simp only [collapseRunsAux, hp, if_true] at h
        rcases List.mem_cons.mp h with h0 | h0
        · exact Or.inl h0
        · rcases ih true h0 with h1 | ⟨h2, h3⟩
          · exact Or.inl h1
          · exact Or.inr ⟨List.mem_cons_of_mem _ h2, h3⟩
    | false =>
      simp only [collapseRunsAux, hp, Bool.false_eq_true, if_false] at h
      rcases List.mem_cons.mp h with h0 | h0
      · exact Or.inr ⟨h0 ▸ List.mem_cons_self a as, h0 ▸ hp⟩
      · rcases ih false h0 with h1 | ⟨h2, h3⟩
        · exact Or.inl h1
        · exact Or.inr ⟨List.mem_cons_of_mem _ h2, h3⟩

theorem head_collapseRunsAux_true {p : Char → Bool} {r : Char} :
    ∀ (l : List Char) (c : Char), (collapseRunsAux p r true l).head? = some c →
      p c = false := by
  intro l
  induction l with
  | nil => intro c h; simp [collapseRunsAux] at h
  | cons a as ih =>
    intro c h
    cases hp : p a with
    | true =>
      simp only [collapseRunsAux, hp, if_true] at h
      exact ih c h
    | false =>
      simp only [collapseRunsAux, hp, Bool.false_eq_true, if_false, List.head?_cons] at h
      exact (Option.some_inj.mp h) ▸ hp

theorem chain'_collapseRunsAux_hyphen :
    ∀ (b : Bool) (l : List Char),
      List.Chain' (fun a b => ¬(a = '-' ∧ b = '-')) (collapseRunsAux isHyphen '-' b l) := by
  intro b l
  induction l generalizing b with
  | nil => simp [collapseRunsAux]
  | cons a as ih =>
    cases hp : isHyphen a with
    | true =>
      cases b with
      | true =>
        simp only [collapseRunsAux, hp, if_true]
        exact ih true
      | false =>
        simp only [collapseRunsAux, hp, if_true, Bool.false_eq_true, if_false]
        rw [List.chain'_cons']
        refine ⟨?_, ih true⟩
        intro y hy h2
        have := head_collapseRunsAux_true (p := isHyphen) (r := '-') as y hy
        rw [h2.2] at this
        simp [isHyphen] at this
    | false =>
      simp only [collapseRunsAux, hp, Bool.false_eq_true, if_false]
      rw [List.chain'_cons']
      refine ⟨?_, ih false⟩
      intro y hy h2
      rw [h2.1] at hp
      simp [isHyphen] at hp

theorem dropWhile_eq_self_of_all {p : Char → Bool} :
    ∀ {l : List Char}, (∀ c ∈ l, p c = false) → l.dropWhile p = l := by
  intro l h
  cases l with
  | nil => rfl
  | cons a as =>
    rw [List.dropWhile_cons, h a (List.mem_cons_self a as)]
    simp

theorem jsTrimChars_eq_self {l : List Char}
    (h : ∀ c ∈ l, isJsWhitespace c = false) : jsTrimChars l = l := by
  unfold jsTrimChars
  rw [dropWhile_eq_self_of_all h]
  rw [dropWhile_eq_self_of_all (fun c hc => h c (List.mem_reverse.mp hc))]
  exact List.reverse_reverse l

theorem mem_jsTrimChars {l : List Char} {c : Char} (h : c ∈ jsTrimChars l) : c ∈ l := by
  unfold jsTrimChars at h
  rw [List.mem_reverse] at h
  have h1 := (List.dropWhile_sublist (l := (l.dropWhile isJsWhitespace).reverse)
    (p := isJsWhitespace)).subset h
  rw [List.mem_reverse] at h1
  exact (List.dropWhile_sublist (l := l) (p := isJsWhitespace)).subset h1

theorem mem_generateSlug_char {t : String} {c : Char}
    (h : c ∈ (generateSlug t).data) :
    ('a' ≤ c ∧ c ≤ 'z') ∨ ('0' ≤ c ∧ c ≤ '9') ∨ c = '-' := by
  unfold generateSlug at h
  have h1 : c ∈ collapseRuns isHyphen '-'
      (collapseRuns isJsWhitespace '-' ((t.data.map Char.toLower).filter slugKeep)) :=
    mem_jsTrimChars h
  rcases mem_collapseRunsAux false _ h1 with h2 | ⟨h2, _⟩
  · exact Or.inr (Or.inr h2)
  · rcases mem_collapseRunsAux false _ h2 with h3 | ⟨h3, hws⟩
    · exact Or.inr (Or.inr h3)
    · have hk := List.of_mem_filter h3
      simp only [slugKeep, Bool.or_eq_true, Bool.and_eq_true, decide_eq_true_eq] at hk
      rcases hk with ((hk | hk) | hk) | hk
      · exact Or.inl hk
      · exact Or.inr (Or.inl hk)
      · rw [hk] at hws; exact absurd hws (by simp)
      · exact Or.inr (Or.inr hk)

theorem generateSlug_no_whitespace (t : String) :
    ∀ c ∈ collapseRuns isHyphen '-'
        (collapseRuns isJsWhitespace '-' ((t.data.map Char.toLower).filter slugKeep)),
      isJsWhitespace c = false := by
  intro c hc
  rcases mem_collapseRunsAux false _ hc with h1 | ⟨h1, _⟩
  · rw [h1]; rfl
  · rcases mem_collapseRunsAux false _ h1 with h2 | ⟨_, h3⟩
    · rw [h2]; rfl
    · exact h3

theorem generateSlug_data_eq (t : String) :
    (generateSlug t).data = collapseRuns isHyphen '-'
      (collapseRuns isJsWhitespace '-' ((t.data.map Char.toLower).filter slugKeep)) := by
  unfold generateSlug
  exact jsTrimChars_eq_self (generateSlug_no_whitespace t)

theorem generateSlug_chain (t : String) :
    List.Chain' (fun a b => ¬(a = '-' ∧ b = '-')) (generateSlug t).data := by
  rw [generateSlug_data_eq]
  exact chain'_collapseRunsAux_hyphen false _

theorem retryGo_ok {α : Type} {op : Nat → Except String α} :
    ∀ {rem k : Nat} {a : α}, retryGo op rem k = .ok a → ∃ j, op j = .ok a := by
  intro rem
  induction rem with
  | zero => intro k a h; exact ⟨k, h⟩
  | succ r ih =>
    intro k a h
    cases hop : op k with
    | ok b =>
      rw [retryGo, hop] at h
      exact ⟨k, hop.trans h⟩
    | error e =>
      rw [retryGo, hop] at h
      exact ih h

theorem retryExecute_ok {α : Type} {n : Nat} {op : Nat → Except String α} {a : α}
    (h : retryExecute n op = .ok a) : ∃ j, op j = .ok a :=
  retryGo_ok h

theorem mem_scrapeAnimePages {cfg : ScrapingConfig} {env : RunEnv}
    {pages : List Nat} {r : ScrapedAnimeData}
    (h : r ∈ (scrapeAnimePages cfg env pages).1) :
    ∃ p ∈ pages, ∃ rs, scrapeAnimePage cfg env p = .ok rs ∧ r ∈ rs := by
  induction pages with
  | nil => simp [scrapeAnimePages] at h
  | cons p rest ih =>
    rw [scrapeAnimePages] at h
    cases hp : scrapeAnimePage cfg env p with
    | ok rs =>
      rw [hp] at h
      simp only [List.mem_append] at h
      rcases h with h | h
      · exact ⟨p, List.mem_cons_self p rest, rs, hp, h⟩
      · rcases ih h with ⟨q, hq, rs', hrs', hr'⟩
        exact ⟨q, List.mem_cons_of_mem p hq, rs', hrs', hr'⟩
    | error e =>
      rw [hp] at h
      rcases ih h with ⟨q, hq, rs', hrs', hr'⟩
      exact ⟨q, List.mem_cons_of_mem p hq, rs', hrs', hr'⟩

theorem extractAnimeData_some {el : Except String RawItem} {url : String}
    {now : Nat} {r : ScrapedAnimeData}
    (h : extractAnimeData el url now = some r) :
    ∃ item, el = .ok item ∧ jsTrim item.titleText ≠ "" ∧ item.imageSrc.getD "" ≠ "" ∧
      r = { title := jsTrim item.titleText
            slug := generateSlug (jsTrim item.titleText)
            imageUrl := item.imageSrc.getD ""
            status := parseStatus (jsTrim item.statusText)
            description := some ""
            genres := []
            episodes := []
            metadata := { originalUrl := url, scrapedAt := now, source := "animeindo" } } := by
  cases el with
  | error e => simp [extractAnimeData] at h
  | ok item =>
    refine ⟨item, rfl, ?_⟩
    by_cases ht : jsTrim item.titleText = ""
    · simp [extractAnimeData, ht] at h
    · by_cases hi : item.imageSrc.getD "" = ""
      · simp [extractAnimeData, ht, hi] at h
      · simp only [extractAnimeData, ht, hi, Bool.or_self, decide_False,
          Bool.false_eq_true, if_false, Option.some_inj] at h
        exact ⟨ht, hi, h.symm⟩

theorem scrapeWithCheerio_ok {resp : Except String (List (Except String RawItem))}
    {url : String} {now : Nat} {rs : List ScrapedAnimeData}
    (h : scrapeWithCheerio resp url now = .ok rs) :
    ∃ eps, resp = .ok eps ∧ rs = eps.filterMap fun el => extractAnimeData el url now := by
  cases resp with
  | error e => simp [scrapeWithCheerio, Except.map] at h
  | ok eps =>
    refine ⟨eps, rfl, ?_⟩
    simp only [scrapeWithCheerio, Except.map, Except.ok.injEq] at h
    exact h.symm

theorem scrapeWithPuppeteer_ok {b : Browser} {env : PuppeteerEnv} {url : String}
    {now : Nat} {rs : List ScrapedAnimeData}
    (h : (scrapeWithPuppeteer (some b) env url now).1 = .ok rs) :
    ∃ eps, env.evaluate = .ok eps ∧
      rs = (pageEvaluate eps).map (renderedItemToRecord url now) := by
  unfold scrapeWithPuppeteer at h
  cases hnp : env.newPage with
  | error e => rw [hnp] at h; simp at h
  | ok u =>
    rw [hnp] at h
    cases hsv : env.setViewport with
    | error e => simp [hsv] at h
    | ok v =>
      cases hsu : env.setUserAgent with
      | error e => simp [hsv, hsu] at h
      | ok w =>
        cases hg : env.goto with
        | error e => simp [hsv, hsu, hg] at h
        | ok x =>
          cases hw : env.waitForSelector with
          | error e => simp [hsv, hsu, hg, hw] at h
          | ok y =>
            cases he : env.evaluate with
            | error e => simp [hsv, hsu, hg, hw, he] at h
            | ok eps =>
              refine ⟨eps, rfl, ?_⟩
              simp only [hsv, hsu, hg, hw, he, Except.ok.injEq] at h
              exact h.symm

theorem scrapeAnimePage_ok {cfg : ScrapingConfig} {env : RunEnv} {p : Nat}
    {rs : List ScrapedAnimeData} (h : scrapeAnimePage cfg env p = .ok rs) :
    ∃ k, (if cfg.usePuppeteer then
        (scrapeWithPuppeteer env.browser (env.rendered p k) (pageUrl p) env.now).1
      else scrapeWithCheerio (env.static p k) (pageUrl p) env.now) = .ok rs := by
  unfold scrapeAnimePage at h
  exact retryExecute_ok h

theorem run_record_origin {cfg : ScrapingConfig} {env : RunEnv}
    {pages : List Nat} {r : ScrapedAnimeData}
    (hr : r ∈ (scrapeAnimePages cfg env pages).1) :
    ∃ p ∈ pages,
      (cfg.usePuppeteer = false ∧
        ∃ el, extractAnimeData el (pageUrl p) env.now = some r) ∨
      (cfg.usePuppeteer = true ∧
        ∃ item, r = renderedItemToRecord (pageUrl p) env.now item) := by
  obtain ⟨p, hp, rs, hrs, hmem⟩ := mem_scrapeAnimePages hr
  obtain ⟨k, hk⟩ := scrapeAnimePage_ok hrs
  refine ⟨p, hp, ?_⟩
  cases hup : cfg.usePuppeteer with
  | true =>
    rw [hup, if_pos rfl] at hk
    cases hb : env.browser with
    | none => rw [hb] at hk; simp [scrapeWithPuppeteer] at hk
    | some b =>
      rw [hb] at hk
      obtain ⟨eps, _, heq⟩ := scrapeWithPuppeteer_ok hk
      rw [heq] at hmem
      obtain ⟨item, _, hi⟩ := List.mem_map.mp hmem
      exact Or.inr ⟨rfl, item, hi.symm⟩
  | false =>
    rw [hup, if_neg (by simp)] at hk
    obtain ⟨eps, _, heq⟩ := scrapeWithCheerio_ok hk
    rw [heq] at hmem
    obtain ⟨el, _, he⟩ := List.mem_filterMap.mp hmem
    exact Or.inl ⟨rfl, el, he⟩

/-- Claim C1, counterexample.  The claim says the run over pages [1,2,3] with
page 2 exhausting its retries returns a RunResult carrying an errors list
with exactly one entry for page 2 and a pagesSucceeded count of 2.  The
code's scrapeAnimePages returns only the flat success list: the run in
which page 2 exhausts every retry and the run in which page 2 succeeds with
zero items return identical values, so no reading of the returned value as
a RunResult can report the claimed error data in both runs. -/
theorem run_returns_no_error_information :
    (scrapeAnimePages cfgStatic envPage2Fails [1, 2, 3]).1 =
      (scrapeAnimePages cfgStatic envPage2Empty [1, 2, 3]).1 ∧
    ¬ ∃ view : List ScrapedAnimeData → SpecRunResult,
        (view (scrapeAnimePages cfgStatic envPage2Fails [1, 2, 3]).1).errors.length = 1 ∧
        (view (scrapeAnimePages cfgStatic envPage2Empty [1, 2, 3]).1).errors.length = 0 := by
  refine ⟨by decide, ?_⟩
  rintro ⟨f, h1, h2⟩
  rw [show (scrapeAnimePages cfgStatic envPage2Fails [1, 2, 3]).1 =
      (scrapeAnimePages cfgStatic envPage2Empty [1, 2, 3]).1 from by decide] at h1
  omega

/-- Claim C1, amended.  Over pages [1,2,3] where every fetch attempt of
page 2 fails (exhausting the 3 configured retries) and pages 1 and 3 each
yield two extractable items, the run raises no error (scrapeAnimePages is
total) and returns the 4 successes in page-then-item order; page 2's
terminal failure is only logged as an event and contributes nothing to the
returned value, which carries no error entries or success counts. -/
theorem run_page2_failure_isolated :
    (scrapeAnimePages cfgStatic envPage2Fails [1, 2, 3]).1.length = 4 ∧
    (scrapeAnimePages cfgStatic envPage2Fails [1, 2, 3]).1.map (fun r => r.title) =
      ["Anime 1 1", "Anime 1 2", "Anime 3 1", "Anime 3 2"] ∧
    (scrapeAnimePages cfgStatic envPage2Fails [1, 2, 3]).2 =
      [RunEvent.page 1 true, RunEvent.sleep 1000, RunEvent.page 2 false,
       RunEvent.page 3 true, RunEvent.sleep 1000] :=
  ⟨by decide, by decide, by decide⟩

/-- Claim C2, counterexample.  On the rendered fetch path the engine can
produce a record with an empty title: when the title element exists but its
text content is empty, the page.evaluate callback still pushes the item
(only element existence is checked) and the mapping to ScrapedAnimeData
performs no emptiness check. -/
theorem rendered_path_emits_empty_title_record :
    ∃ rs, (scrapeWithPuppeteer (some { headless := true }) puppeteerEmptyTitleEnv
        (pageUrl 1) 0).1 = .ok rs ∧ ∃ r ∈ rs, r.title = "" ∧ r.imageUrl ≠ "" :=
  ⟨[emptyTitleRecord], rfl, emptyTitleRecord, by decide, by decide, by decide⟩

/-- Claim C2, amended.  On the static fetch path the invariant holds: every
record in a run's output has a non-empty title and a non-empty imageUrl,
because extractAnimeData drops candidates whose trimmed title or image URL
is empty.  (The rendered path does not enforce the invariant; see the
counterexample.) -/
theorem static_run_records_nonempty (cfg : ScrapingConfig) (env : RunEnv)
    (pages : List Nat) (r : ScrapedAnimeData) (hcfg : cfg.usePuppeteer = false)
    (hr : r ∈ (scrapeAnimePages cfg env pages).1) :
    r.title ≠ "" ∧ r.imageUrl ≠ "" := by
  obtain ⟨p, hp, hcase⟩ := run_record_origin hr
  rcases hcase with ⟨_, el, he⟩ | ⟨htrue, _⟩
  · obtain ⟨it, _, ht, hi, hrEq⟩ := extractAnimeData_some he
    subst hrEq
    exact ⟨ht, hi⟩
  · rw [hcfg] at htrue
    exact absurd htrue (by simp)

/-- Claim C2, witness: the amended theorem applied to a concrete static run
over page 1 and the record it extracts. -/
theorem static_run_records_nonempty_witness : recA11.title ≠ "" ∧ recA11.imageUrl ≠ "" :=
  static_run_records_nonempty cfgStatic envPage2Fails [1] recA11 rfl (by decide)

/-- Claim C3, counterexample.  generateSlug can return slugs with a leading
or trailing hyphen: the final String.prototype.trim removes white space,
but at that point every white-space character has already been replaced by
a hyphen, so the title " hello" yields "-hello" and "anime -" yields
"anime-". -/
theorem generateSlug_keeps_boundary_hyphens :
    generateSlug " hello" = "-hello" ∧
    (generateSlug " hello").data.head? = some '-' ∧
    generateSlug "anime -" = "anime-" :=
  ⟨by decide, by decide, by decide⟩

/-- Claim C3, amended.  For every input title the generated slug contains
only characters in [a-z0-9-] and contains no run of two or more consecutive
hyphens; leading and trailing hyphens, however, are possible (see the
counterexample), since the final trim removes white space, not hyphens. -/
theorem generateSlug_charset_and_no_hyphen_runs (title : String) :
    (∀ c ∈ (generateSlug title).data,
      ('a' ≤ c ∧ c ≤ 'z') ∨ ('0' ≤ c ∧ c ≤ '9') ∨ c = '-') ∧
    List.Chain' (fun a b => ¬(a = '-' ∧ b = '-')) (generateSlug title).data :=
  ⟨fun _ hc => mem_generateSlug_char hc, generateSlug_chain title⟩

/-- Claim C3, witness: the amended theorem applied to the title "hello"
and its character h. -/
theorem generateSlug_charset_witness :
    ('a' ≤ 'h' ∧ 'h' ≤ 'z') ∨ ('0' ≤ 'h' ∧ 'h' ≤ '9') ∨ 'h' = '-' :=
  (generateSlug_charset_and_no_hyphen_runs "hello").1 'h' (by decide)

/-- Claim C4, counterexample.  The run over the single succeeding page 1
sleeps after that last page, and the run over pages [2,3] in which page 2
fails proceeds from page 2 to page 3 with no sleep in between: the delay
sits inside the try block after the fetch, so it runs after every
successful page (including the last) and is skipped when the page fails. -/
theorem sleep_after_last_page_and_skipped_after_failure :
    (scrapeAnimePages cfgStatic envPage2Fails [1]).2 =
      [RunEvent.page 1 true, RunEvent.sleep 1000] ∧
    (scrapeAnimePages cfgStatic envPage2Fails [2, 3]).2 =
      [RunEvent.page 2 false, RunEvent.page 3 true, RunEvent.sleep 1000] :=
  ⟨by decide, by decide⟩

/-- Claim C4, amended.  The orchestrator's event trace is exactly: for each
page in order, the page outcome followed by a sleep of interPageDelayMillis
when the page succeeded (also after the last page), and no sleep at all
when the page failed. -/
theorem scrapeAnimePages_event_trace (cfg : ScrapingConfig) (env : RunEnv)
    (pages : List Nat) :
    (scrapeAnimePages cfg env pages).2 =
      pages.flatMap fun p =>
        match scrapeAnimePage cfg env p with
        | .ok _ => [RunEvent.page p true, RunEvent.sleep cfg.delay]
        | .error _ => [RunEvent.page p false] := by
  induction pages with
  | nil => rfl
  | cons p rest ih =>
    rw [scrapeAnimePages, List.flatMap_cons]
    cases hp : scrapeAnimePage cfg env p with
    | ok rs => simp [hp, ih]
    | error e => simp [hp, ih]

/-- Claim C5, counterexample.  With usePuppeteer set and no prior
initializeBrowser call, the first rendered page fetch does not initialize
the browser itself: it fails with 'Browser not initialized' without
acquiring a tab, even for an environment in which the identical fetch
succeeds once initializeBrowser has been called explicitly. -/
theorem rendered_fetch_without_prior_init_fails :
    scrapeWithPuppeteer none puppeteerGoodEnv (pageUrl 1) 0 =
      (.error "Browser not initialized", []) ∧
    ∃ rs, (scrapeWithPuppeteer (initializeBrowser cfgRendered none) puppeteerGoodEnv
        (pageUrl 1) 0).1 = .ok rs ∧ rs ≠ [] := by
  refine ⟨rfl, [renderedItemToRecord (pageUrl 1) 0
    { title := "Frieren Episode 5", imageUrl := "http://img.example/frieren5.jpg"
      status := "Ongoing", time := "1 hour ago" }], rfl, by decide⟩

/-- Claim C5, amended.  The headless browser is created only by an explicit
initializeBrowser call, which launches lazily at the call site: it creates
the browser exactly when usePuppeteer is set and no browser exists, and
leaves an existing browser (or a non-Puppeteer configuration) unchanged;
a rendered fetch made before any such call fails with
'Browser not initialized'. -/
theorem initializeBrowser_explicit_guarded (cfg : ScrapingConfig) (b : Browser)
    (env : PuppeteerEnv) (url : String) (now : Nat) :
    (cfg.usePuppeteer = true → initializeBrowser cfg none = some { headless := true }) ∧
    (cfg.usePuppeteer = false → initializeBrowser cfg none = none) ∧
    initializeBrowser cfg (some b) = some b ∧
    (scrapeWithPuppeteer none env url now).1 = .error "Browser not initialized" := by
  refine ⟨?_, ?_, ?_, rfl⟩
  · intro h
    simp [initializeBrowser, h]
  · intro h
    simp [initializeBrowser, h]
  · simp [initializeBrowser]

/-- Claim C5, witness: the amended theorem applied to the Puppeteer
configuration with no browser created yet. -/
theorem initializeBrowser_guard_witness :
    initializeBrowser cfgRendered none = some { headless := true } :=
  (initializeBrowser_explicit_guarded cfgRendered { headless := true }
    puppeteerGoodEnv (pageUrl 1) 0).1 rfl

/-- Claim C6, counterexample.  An item whose title text is "   " is
neither missing nor empty, and its image URL is present and non-empty, yet
extraction returns nothing: the code trims the title before the emptiness
check, so the claim's "returns nothing only when title or image URL is
missing or empty, otherwise a record equal to the input fields" fails. -/
theorem extract_drops_whitespace_only_title :
    whitespaceTitleItem.titleText ≠ "" ∧ whitespaceTitleItem.imageSrc.getD "" ≠ "" ∧
    extractAnimeData (.ok whitespaceTitleItem) (pageUrl 1) 0 = none :=
  ⟨by decide, by decide, by decide⟩

/-- Claim C6, amended.  A read error while extracting a single item yields
a drop (none), never a page failure; extraction returns none exactly when
the trimmed title is empty (so also for whitespace-only titles) or the
image URL is missing or empty; any returned record's title equals the
trimmed input title and its imageUrl equals the input image URL; and a
successfully fetched static page never fails because of item extraction. -/
theorem extract_drop_and_field_semantics (item : RawItem) (e url : String) (now : Nat) :
    extractAnimeData (.error e) url now = none ∧
    (extractAnimeData (.ok item) url now = none ↔
      (jsTrim item.titleText = "" ∨ item.imageSrc.getD "" = "")) ∧
    (∀ r, extractAnimeData (.ok item) url now = some r →
      r.title = jsTrim item.titleText ∧ r.imageUrl = item.imageSrc.getD "") ∧
    (∀ eps, ∃ rs, scrapeWithCheerio (.ok eps) url now = .ok rs) := by
  refine ⟨rfl, ?_, ?_, fun eps => ⟨_, rfl⟩⟩
  · by_cases ht : jsTrim item.titleText = ""
    · simp [extractAnimeData, ht]
    · by_cases hi : item.imageSrc.getD "" = ""
      · simp [extractAnimeData, ht, hi]
      · simp [extractAnimeData, ht, hi]
  · intro r hr
    obtain ⟨it, hel, _, _, hrEq⟩ := extractAnimeData_some hr
    injection hel with h
    subst h
    subst hrEq
    exact ⟨rfl, rfl⟩

/-- Claim C6, witness: the amended theorem applied to a concrete item with
padded title and the record extracted from it. -/
theorem extract_field_semantics_witness :
    paddedTitleRecord.title = jsTrim paddedTitleItem.titleText ∧
    paddedTitleRecord.imageUrl = paddedTitleItem.imageSrc.getD "" :=
  (extract_drop_and_field_semantics paddedTitleItem "boom" (pageUrl 1) 7).2.2.1
    paddedTitleRecord (by decide)

/-- Claim C7, counterexample.  The text "Selesai akan datang" contains
the upcoming marker 'akan datang' (case-insensitively), yet parseStatus
maps it to "completed", because the completed markers are tested earlier
in the if / else-if chain; so "any text containing a marker maps to that
marker's category" fails for texts containing markers of two categories. -/
theorem parseStatus_priority_conflict :
    jsIncludes (jsToLower "Selesai akan datang") "akan datang" = true ∧
    parseStatus "Selesai akan datang" = "completed" ∧
    ("completed" : String) ≠ "upcoming" :=
  ⟨by decide, by decide, by decide⟩

/-- Claim C7, amended.  parseStatus tests the markers case-insensitively in
the fixed priority order ongoing/berlangsung, then completed/selesai, then
upcoming/akan datang: a text maps to the first category in that order one
of whose markers it contains, and to "ongoing" when it contains no
marker; in particular any text containing markers of exactly one category
maps to that category. -/
theorem parseStatus_marker_priority (s : String) :
    ((jsIncludes (jsToLower s) "ongoing" || jsIncludes (jsToLower s) "berlangsung") = true →
      parseStatus s = "ongoing") ∧
    ((jsIncludes (jsToLower s) "ongoing" || jsIncludes (jsToLower s) "berlangsung") = false →
      (jsIncludes (jsToLower s) "completed" || jsIncludes (jsToLower s) "selesai") = true →
      parseStatus s = "completed") ∧
    ((jsIncludes (jsToLower s) "ongoing" || jsIncludes (jsToLower s) "berlangsung") = false →
      (jsIncludes (jsToLower s) "completed" || jsIncludes (jsToLower s) "selesai") = false →
      (jsIncludes (jsToLower s) "upcoming" || jsIncludes (jsToLower s) "akan datang") = true →
      parseStatus s = "upcoming") ∧
    ((jsIncludes (jsToLower s) "ongoing" || jsIncludes (jsToLower s) "berlangsung") = false →
      (jsIncludes (jsToLower s) "completed" || jsIncludes (jsToLower s) "selesai") = false →
      (jsIncludes (jsToLower s) "upcoming" || jsIncludes (jsToLower s) "akan datang") = false →
      parseStatus s = "ongoing") := by
  refine ⟨?_, ?_, ?_, ?_⟩
  · intro h1
    simp [parseStatus, h1]
  · intro h1 h2
    simp [parseStatus, h1, h2]
  · intro h1 h2 h3
    simp [parseStatus, h1, h2, h3]
  · intro h1 h2 h3
    simp [parseStatus, h1, h2, h3]

/-- Claim C7, witness: the amended theorem applied to the text
"Sudah SELESAI", which contains only the completed marker. -/
theorem parseStatus_marker_witness : parseStatus "Sudah SELESAI" = "completed" :=
  (parseStatus_marker_priority "Sudah SELESAI").2.1 (by decide) (by decide)

/-- Claim C8.  In every rendered page fetch in which the tab was acquired
(browser.newPage succeeded), the fetch's event trace is exactly acquisition
followed by release: the finally clause closes the tab before the fetch
returns on the success path and on every failure path (viewport or
user-agent setup error, navigation error, selector timeout, extraction
error) alike. -/
theorem scrapeWithPuppeteer_always_closes_page (b : Browser) (env : PuppeteerEnv)
    (url : String) (now : Nat) (h : env.newPage = .ok ()) :
    (scrapeWithPuppeteer (some b) env url now).2 = [PEvent.newPage, PEvent.closePage] := by
  unfold scrapeWithPuppeteer
  rw [h]

/-- Claim C8, witness: the theorem applied to an environment whose content
selector never appears (the waitForSelector timeout failure path). -/
theorem puppeteer_close_on_timeout_witness :
    (scrapeWithPuppeteer (some { headless := true }) puppeteerTimeoutEnv
      (pageUrl 1) 0).2 = [PEvent.newPage, PEvent.closePage] :=
  scrapeWithPuppeteer_always_closes_page { headless := true } puppeteerTimeoutEnv
    (pageUrl 1) 0 rfl

/-- Claim C9.  Every record the engine produces, on either fetch path, has
description equal to the empty string (the optional field is set to ''),
genres and episodes equal to the empty list, source metadata with source
"animeindo" and the run clock as scrapedAt, and originalUrl equal to the
URL of the fetched page it came from: neither path ever populates
description, genres or episodes from the page. -/
theorem run_records_constant_fields (cfg : ScrapingConfig) (env : RunEnv)
    (pages : List Nat) (r : ScrapedAnimeData)
    (hr : r ∈ (scrapeAnimePages cfg env pages).1) :
    r.description = some "" ∧ r.genres = [] ∧ r.episodes = [] ∧
    r.metadata.source = "animeindo" ∧ r.metadata.scrapedAt = env.now ∧
    ∃ p ∈ pages, r.metadata.originalUrl = pageUrl p := by
  obtain ⟨p, hp, hcase⟩ := run_record_origin hr
  rcases hcase with ⟨_, el, he⟩ | ⟨_, item, hi⟩
  · obtain ⟨it, _, _, _, hrEq⟩ := extractAnimeData_some he
    subst hrEq
    exact ⟨rfl, rfl, rfl, rfl, rfl, p, hp, rfl⟩
  · subst hi
    exact ⟨rfl, rfl, rfl, rfl, rfl, p, hp, rfl⟩

/-- Claim C9, witness: the theorem applied to a concrete static run over
page 1 and the record it produces. -/
theorem run_records_constant_fields_witness :
    recA11.description = some "" ∧ recA11.genres = [] ∧ recA11.episodes = [] ∧
    recA11.metadata.source = "animeindo" ∧ recA11.metadata.scrapedAt = envPage2Fails.now ∧
    ∃ p ∈ [1], recA11.metadata.originalUrl = pageUrl p :=
  run_records_constant_fields cfgStatic envPage2Fails [1] recA11 (by decide)

/-- Claim C10.  For the non-empty title "!!!", which has no characters in
[a-z0-9] after lowercasing, the generated slug is the empty string, and the
engine produces a record whose slug is empty while its title is the
non-empty "!!!". -/
theorem nonalnum_title_yields_empty_slug :
    generateSlug "!!!" = "" ∧
    ∃ r ∈ (scrapeAnimePages cfgStatic envBang [1]).1, r.slug = "" ∧ r.title = "!!!" :=
  ⟨by decide, bangRecord, by decide, by decide, by decide⟩
